import Mathlib

/-!
Verification of the `go-sql-quickstart-with-env` program (`src/main.go`).

The program is a linear script: load configuration with viper, connect to
PostgreSQL with pgx, query `SELECT NOW()`, create the `users` table if it
does not exist, insert three hardcoded user records with
`ON CONFLICT (username) DO NOTHING`, then print the captured time and the
`Developer` configuration value.

The shallow embedding below models:
  - the database state (the `users` table schema and its rows) together with
    PostgreSQL's semantics for the two statements issued against it
    (`CREATE TABLE IF NOT EXISTS`, `INSERT ... ON CONFLICT (username) DO NOTHING`);
  - viper's configuration store with its precedence order
    (explicit `Set` > environment variables read by `AutomaticEnv` > config file);
  - the external world as oracles: the outcome of reading the `.env` file,
    of the network connection attempt, of the `SELECT NOW()` query, of the
    DDL statement, and per-record external execution failures
    (e.g. connectivity loss) during the insert loop;
  - Go control flow of `main`, in particular that `log.Fatal` terminates the
    process through `os.Exit`, which does NOT run deferred functions, so the
    `defer conn.Close(...)` registered at line 60 only runs on the normal
    return path.
-/

/-- Row of the `users` table as far as this program observes it: `id` and
`created_at` are generated server side and never read back, so only
`username` and `email` are modelled. -/
structure Row where
  username : String
  email : String
deriving DecidableEq, Repr

/-- Column of a SQL table schema, carrying the constraints that appear in the
DDL statement at `src/main.go` lines 73-78. -/
structure Column where
  name : String
  sqlType : String
  maxLen : Option Nat
  primaryKey : Bool
  uniq : Bool
  notNull : Bool
  defaultVal : Option String
deriving DecidableEq, Repr

/-- Schema of the `users` table, translated from the `tablecreate` DDL string
(`src/main.go` lines 73-78): serial primary key `id`, unique non-null
`username` VARCHAR(50), unique non-null `email` VARCHAR(100), and
`created_at` TIMESTAMP defaulting to `CURRENT_TIMESTAMP`. -/
def usersSchema : List Column :=
  [ { name := "id", sqlType := "SERIAL", maxLen := none,
      primaryKey := true, uniq := false, notNull := false, defaultVal := none },
    { name := "username", sqlType := "VARCHAR", maxLen := some 50,
      primaryKey := false, uniq := true, notNull := true, defaultVal := none },
    { name := "email", sqlType := "VARCHAR", maxLen := some 100,
      primaryKey := false, uniq := true, notNull := true, defaultVal := none },
    { name := "created_at", sqlType := "TIMESTAMP", maxLen := none,
      primaryKey := false, uniq := false, notNull := false,
      defaultVal := some "CURRENT_TIMESTAMP" } ]

/-- State of the external PostgreSQL database: whether the `users` table
exists (and with which schema), and its rows in insertion order. -/
structure DB where
  usersTable : Option (List Column)
  rows : List Row
deriving DecidableEq, Repr

/-- Database with no `users` table and no rows. -/
def emptyDB : DB := { usersTable := none, rows := [] }

/-- Semantics of the `tablecreate` statement (`src/main.go` lines 73-83):
`CREATE TABLE IF NOT EXISTS users (...)` creates the table with the schema of
the DDL when it is absent and is a no-op when a `users` table already
exists. -/
def createTableIfNotExists (db : DB) : DB :=
  match db.usersTable with
  | some _ => db
  | none => { db with usersTable := some usersSchema }

/-- Error text produced by PostgreSQL for a uniqueness violation on the
`email` column, which `ON CONFLICT (username) DO NOTHING` does not cover. -/
def emailConflictMsg : String :=
  "ERROR: duplicate key value violates unique constraint \x22users_email_key\x22 (SQLSTATE 23505)"

/-- Error text produced by PostgreSQL when the `users` table does not
exist. -/
def noTableMsg : String :=
  "ERROR: relation \x22users\x22 does not exist (SQLSTATE 42P01)"

/-- Semantics of the `addUserSql` statement (`src/main.go` lines 99-101):
`INSERT INTO users (username, email) VALUES ($1, $2) ON CONFLICT (username)
DO NOTHING`. A conflict on the arbiter column `username` is resolved by
silently skipping the row (statement succeeds with zero rows affected); a
uniqueness violation on `email` is not covered by the conflict clause and
raises an error; otherwise the row is appended. -/
def insertUser (db : DB) (u e : String) : Except String DB :=
  if db.usersTable.isNone then
    Except.error noTableMsg
  else if db.rows.any (fun r => r.username = u) then
    Except.ok db
  else if db.rows.any (fun r => r.email = e) then
    Except.error emailConflictMsg
  else
    Except.ok { db with rows := db.rows ++ [{ username := u, email := e }] }

/-- Outcome of one `conn.Exec` call of the insert loop (`src/main.go` line
106): an external execution failure (connectivity loss, etc.), when the
oracle supplies one, otherwise the database's own semantics of the insert
statement. -/
def execInsert (ext : Option String) (db : DB) (u e : String) : Except String DB :=
  match ext with
  | some m => Except.error m
  | none => insertUser db u e

/-- Observable outcome of one iteration of the insert loop: either the
success print (`src/main.go` line 111) or the failure log (line 108), each
carrying the record it reported on. -/
inductive InsertEvent
  | success (username email : String)
  | failure (username email msg : String)
deriving DecidableEq, Repr

/-- Username the event reports on (both branches of the loop name
`user["username"]`). -/
def eventUser : InsertEvent → String
  | InsertEvent.success u _ => u
  | InsertEvent.failure u _ _ => u

/-- Insert loop of `src/main.go` lines 105-112: each record is attempted in
sequence order; a failing `conn.Exec` produces a failure event and the loop
continues with the next record; a succeeding one produces a success event.
The per-record oracle list supplies external execution failures (head for
the current record, tail for the rest; exhausted oracle means no external
failure). -/
def runInserts : List (Option String) → DB → List (String × String) → DB × List InsertEvent
  | _, db, [] => (db, [])
  | ext, db, (u, e) :: rest =>
    match execInsert (ext.headD none) db u e with
    | Except.ok db1 =>
      let p := runInserts ext.tail db1 rest
      (p.1, InsertEvent.success u e :: p.2)
    | Except.error m =>
      let p := runInserts ext.tail db rest
      (p.1, InsertEvent.failure u e m :: p.2)

/-- Configuration sources of a run: the outcome of `viper.ReadInConfig()` on
the `.env` file (`none` means it was read successfully, `some m` the error),
the key-value pairs of the file, and the process environment variables read
by `viper.AutomaticEnv()`. -/
structure ConfigEnv where
  fileErr : Option String
  fileVals : List (String × String)
  envVars : List (String × String)

/-- First value bound to a key in an association list. -/
def lookupKV : List (String × String) → String → Option String
  | [], _ => none
  | (k, v) :: rest, key => if k = key then some v else lookupKV rest key

/-- Keys installed programmatically via `viper.Set`: `src/main.go` line 44
sets `Developer` to the constant `"Hozana"`. -/
def viperOverrides : List (String × String) := [("Developer", "Hozana")]

/-- Semantics of `viper.GetString` for this run: viper's precedence order is
explicit `Set` values first, then environment variables (enabled by
`viper.AutomaticEnv()` at line 43), then the config file, and the empty
string when the key is bound nowhere. -/
def viperGetString (cfg : ConfigEnv) (key : String) : String :=
  match lookupKV viperOverrides key with
  | some v => v
  | none =>
    match lookupKV cfg.envVars key with
    | some v => v
    | none =>
      match lookupKV cfg.fileVals key with
      | some v => v
      | none => ""

/-- External world of one run: the configuration sources, the outcome of
`pgx.Connect` as a function of the connection string (`none` means the
connection succeeds, `some m` the error), the outcome of the `SELECT NOW()`
scalar query (the rendered timestamp on success), the outcome of the DDL
`conn.Exec` (`none` means success), and the per-record external failure
oracle of the insert loop. -/
structure World where
  cfg : ConfigEnv
  net : String → Option String
  nowRes : Except String String
  createRes : Option String
  insertExt : List (Option String)

/-- Statement issued over the database connection, in issue order. -/
inductive Query
  | qNow
  | qCreateTable
  | qInsert (username email : String)
deriving DecidableEq, Repr

/-- Statement a loop iteration issued (`conn.Exec` at `src/main.go` line 106
runs for every record, whatever its outcome). -/
def eventQuery : InsertEvent → Query
  | InsertEvent.success u e => Query.qInsert u e
  | InsertEvent.failure u e _ => Query.qInsert u e

/-- Observable result of one run of `main`: the lines written to standard
output in order, the non-fatal log lines (`log.Printf`, written to the
diagnostic stream), the `log.Fatal` message when the process terminated
fatally, the final database state, the statements issued over the
connection in order, whether the connection was opened, and how many times
`conn.Close` ran. -/
structure RunResult where
  stdout : List String
  errlog : List String
  fatal : Option String
  db : DB
  queries : List Query
  opened : Bool
  closes : Nat
deriving Repr

/-- Hardcoded input records of `src/main.go` lines 89-93; the third record
repeats the first username. -/
def usersInput : List (String × String) :=
  [("alice", "alice@example.com"), ("bob", "bob@example.com"),
   ("alice", "alice@example.com")]

/-- Confirmation line printed at `src/main.go` line 85. -/
def tableLine : String := "Table \x27users\x27 created or already exists."

/-- Success line printed per record at `src/main.go` line 111. -/
def successLine (u : String) : String := "User " ++ u ++ " inserted successfully"

/-- Failure log line per record at `src/main.go` line 108. -/
def failLine (u m : String) : String := "Failed to insert user " ++ u ++ ": " ++ m

/-- Time line printed at `src/main.go` line 115. -/
def timeLine (t : String) : String := "Current time: " ++ t

/-- Developer line printed at `src/main.go` line 116. -/
def developerLine (v : String) : String := "Developer: " ++ v

/-- Standard-output line of an event, when it has one (only successes print
to standard output). -/
def successLineOf : InsertEvent → Option String
  | InsertEvent.success u _ => some (successLine u)
  | InsertEvent.failure _ _ _ => none

/-- Diagnostic-stream line of an event, when it has one (only failures are
logged). -/
def failLineOf : InsertEvent → Option String
  | InsertEvent.success _ _ => none
  | InsertEvent.failure u _ m => some (failLine u m)

/-- Shallow embedding of `main` (`src/main.go` lines 29-117). The steps in
order: viper configuration load (fatal on error, line 47), `pgx.Connect`
on the `CONN_STR` value (fatal on error, line 57), `defer conn.Close`
(line 60, runs only on normal return because `log.Fatal` exits through
`os.Exit`, which skips deferred functions), `SELECT NOW()` (fatal on error,
line 66), the DDL statement (fatal on error, line 82), the confirmation
print, the insert loop, and the final time and developer prints. -/
def mainRun (w : World) (db0 : DB) : RunResult :=
  match w.cfg.fileErr with
  | some m =>
    { stdout := [], errlog := [], fatal := some ("Error loading .env file:" ++ m),
      db := db0, queries := [], opened := false, closes := 0 }
  | none =>
    match w.net (viperGetString w.cfg "CONN_STR") with
    | some m =>
      { stdout := [], errlog := [], fatal := some ("Failed to connect:" ++ m),
        db := db0, queries := [], opened := false, closes := 0 }
    | none =>
      match w.nowRes with
      | Except.error m =>
        { stdout := [], errlog := [], fatal := some ("QueryRow failed:" ++ m),
          db := db0, queries := [Query.qNow], opened := true, closes := 0 }
      | Except.ok now =>
        match w.createRes with
        | some m =>
          { stdout := [], errlog := [],
            fatal := some ("Table creation failed:" ++ m),
            db := db0, queries := [Query.qNow, Query.qCreateTable],
            opened := true, closes := 0 }
        | none =>
          let db1 := createTableIfNotExists db0
          let p := runInserts w.insertExt db1 usersInput
          { stdout := tableLine :: (p.2.filterMap successLineOf
              ++ [timeLine now, developerLine (viperGetString w.cfg "Developer")]),
            errlog := p.2.filterMap failLineOf,
            fatal := none,
            db := p.1,
            queries := [Query.qNow, Query.qCreateTable] ++ p.2.map eventQuery,
            opened := true, closes := 1 }

/-- Reference configuration: readable `.env` file binding `CONN_STR`, empty
process environment. -/
def okConfig : ConfigEnv :=
  { fileErr := none,
    fileVals := [("CONN_STR", "postgres://postgres:pw@localhost:5432/testdb")],
    envVars := [] }

/-- Reference world: configuration loads, the connection succeeds, every
statement executes without external failure. -/
def okWorld : World :=
  { cfg := okConfig,
    net := fun _ => none,
    nowRes := Except.ok "2025-12-09 15:30:45.123456 +0000 UTC",
    createRes := none,
    insertExt := [none, none, none] }

/-- C1: over an initially empty database with the hardcoded input sequence
and no external failures, every insert attempt (including the third,
duplicate-username one) succeeds and prints a success line naming its
username, and the final `users` table holds exactly the two rows alice and
bob. -/
theorem reference_run_inserts_and_rows :
    (mainRun okWorld emptyDB).stdout =
      [tableLine, successLine "alice", successLine "bob", successLine "alice",
       timeLine "2025-12-09 15:30:45.123456 +0000 UTC", developerLine "Hozana"]
    ∧ (mainRun okWorld emptyDB).errlog = []
    ∧ (mainRun okWorld emptyDB).fatal = none
    ∧ (mainRun okWorld emptyDB).db.rows =
      [{ username := "alice", email := "alice@example.com" },
       { username := "bob", email := "bob@example.com" }] := by
  refine ⟨?_, ?_, ?_, ?_⟩ <;> rfl

/-- World in which the connection succeeds but the `SELECT NOW()` query
fails, driving the program into the `log.Fatal` at `src/main.go` line 66. -/
def timeFailWorld : World :=
  { cfg := okConfig,
    net := fun _ => none,
    nowRes := Except.error "unexpected EOF",
    createRes := none,
    insertExt := [] }

/-- C2 counterexample: a run in which the connection was opened and the time
query then failed terminates through `log.Fatal`, i.e. `os.Exit`, which does
not run deferred functions — so the deferred `conn.Close` never executes and
the connection is closed zero times, not exactly once. -/
theorem close_skipped_on_fatal_after_open :
    (mainRun timeFailWorld emptyDB).opened = true
    ∧ (mainRun timeFailWorld emptyDB).fatal.isSome = true
    ∧ (mainRun timeFailWorld emptyDB).closes = 0 :=
  ⟨rfl, rfl, rfl⟩

/-- C2 (amended): the connection is closed exactly once on every
normal-completion exit path; on the fatal exits taken after the connection
was opened (time-query or table-creation failure), `log.Fatal` terminates
via `os.Exit` and the deferred close does not run, so the program closes the
connection zero times there. -/
theorem conn_close_discipline (w : World) (db0 : DB) :
    ((mainRun w db0).fatal = none →
      (mainRun w db0).opened = true ∧ (mainRun w db0).closes = 1)
    ∧ ((mainRun w db0).fatal.isSome → (mainRun w db0).closes = 0) := by
  unfold mainRun
  rcases w.cfg.fileErr with _ | m
  · rcases w.net (viperGetString w.cfg "CONN_STR") with _ | m
    · rcases w.nowRes with m | t
      · simp
      · rcases w.createRes with _ | m
        · simp
        · simp
    · simp
  · simp

/-- C2 witness: on the reference run the connection is closed exactly once,
and on the time-query-failure run it is closed zero times. -/
theorem conn_close_discipline_witness :
    (mainRun okWorld emptyDB).closes = 1
    ∧ (mainRun timeFailWorld emptyDB).closes = 0 := by
  have h1 := (conn_close_discipline okWorld emptyDB).1 rfl
  have h2 := (conn_close_discipline timeFailWorld emptyDB).2 rfl
  exact ⟨h1.2, h2⟩

/-- Every record of the insert loop produces exactly one event. -/
theorem runInserts_length (ext : List (Option String)) (db : DB)
    (recs : List (String × String)) :
    (runInserts ext db recs).2.length = recs.length := by
  induction recs generalizing ext db with
  | nil => rfl
  | cons r rest ih =>
    obtain ⟨u, e⟩ := r
    unfold runInserts
    rcases h : execInsert (ext.headD none) db u e with m | db1 <;>
      simp [h, ih]

/-- The event at position `i` of the insert loop reports on the username of
the record at position `i` of the input. -/
theorem runInserts_user (ext : List (Option String)) (db : DB)
    (recs : List (String × String)) (i : Nat) :
    ((runInserts ext db recs).2.get? i).map eventUser
      = (recs.get? i).map Prod.fst := by
  induction recs generalizing ext db i with
  | nil => rfl
  | cons r rest ih =>
    obtain ⟨u, e⟩ := r
    unfold runInserts
    rcases h : execInsert (ext.headD none) db u e with m | db1
    · cases i with
      | zero => simp [h, eventUser]
      | succ n => simp only [h]; simpa using ih ext.tail db n
    · cases i with
      | zero => simp [h, eventUser]
      | succ n => simp only [h]; simpa using ih ext.tail db1 n

/-- C3: the insert loop issues one attempt per input record whatever the
per-record outcomes are — the event list matches the input record by record —
and when one record's `conn.Exec` fails, the failure event carries that
record's username and error, its log line names the username, the database
is left as it was, and the loop goes on to process exactly the remaining
records. -/
theorem insert_failure_logged_and_loop_continues (ext : List (Option String))
    (db : DB) (recs : List (String × String)) :
    ((runInserts ext db recs).2.length = recs.length)
    ∧ (∀ i, ((runInserts ext db recs).2.get? i).map eventUser
          = (recs.get? i).map Prod.fst)
    ∧ (∀ u e rest m, execInsert (ext.headD none) db u e = Except.error m →
        runInserts ext db ((u, e) :: rest)
          = ((runInserts ext.tail db rest).1,
             InsertEvent.failure u e m :: (runInserts ext.tail db rest).2)
        ∧ failLineOf (InsertEvent.failure u e m) = some (failLine u m)) := by
  refine ⟨runInserts_length ext db recs, fun i => runInserts_user ext db recs i, ?_⟩
  intro u e rest m h
  refine ⟨?_, rfl⟩
  simp only [runInserts, h]

/-- C3 witness: with an external failure on the first record, the loop logs
that failure for alice and still processes bob. -/
theorem insert_failure_logged_and_loop_continues_witness :
    (runInserts [some "connection reset"] emptyDB
        [("alice", "alice@example.com"), ("bob", "bob@example.com")]
      = ((runInserts [] emptyDB [("bob", "bob@example.com")]).1,
         InsertEvent.failure "alice" "alice@example.com" "connection reset"
           :: (runInserts [] emptyDB [("bob", "bob@example.com")]).2)
     ∧ failLineOf (InsertEvent.failure "alice" "alice@example.com" "connection reset")
         = some (failLine "alice" "connection reset")) :=
  (insert_failure_logged_and_loop_continues [some "connection reset"] emptyDB
      [("alice", "alice@example.com"), ("bob", "bob@example.com")]).2.2
    "alice" "alice@example.com" [("bob", "bob@example.com")] "connection reset" rfl

/-- World with an empty connection string (no `CONN_STR` anywhere) and an
unreachable server: the connection attempt fails. -/
def unreachableWorld : World :=
  { cfg := { fileErr := none, fileVals := [], envVars := [] },
    net := fun _ => some "connection refused",
    nowRes := Except.ok "t0",
    createRes := none,
    insertExt := [] }

/-- C4: whenever one of the four fatal-tier steps fails — configuration
load, connection, the initial time query, or the schema-creation statement —
the run ends fatally with a logged cause, nothing is printed to standard
output (in particular not the table-created confirmation), the database is
untouched, and no insert statement is ever issued. -/
theorem fatal_tier_terminates_immediately (w : World) (db0 : DB)
    (h : w.cfg.fileErr.isSome
       ∨ (w.net (viperGetString w.cfg "CONN_STR")).isSome
       ∨ (∃ m, w.nowRes = Except.error m)
       ∨ w.createRes.isSome) :
    (mainRun w db0).fatal.isSome
    ∧ (mainRun w db0).stdout = []
    ∧ (mainRun w db0).db = db0
    ∧ ∀ u e, Query.qInsert u e ∉ (mainRun w db0).queries := by
  unfold mainRun
  rcases hf : w.cfg.fileErr with _ | m
  · rcases hn : w.net (viperGetString w.cfg "CONN_STR") with _ | m
    · rcases hq : w.nowRes with m | t
      · simp
      · rcases hc : w.createRes with _ | m
        · exfalso
          rcases h with h | h | ⟨m, hm⟩ | h <;> simp_all
        · simp
    · simp
  · simp

/-- C4 witness: with an empty connection string and an unreachable server
the run is fatal, prints nothing, leaves the database untouched, and never
issues the alice insert. -/
theorem fatal_tier_terminates_immediately_witness :
    (mainRun unreachableWorld emptyDB).fatal.isSome
    ∧ (mainRun unreachableWorld emptyDB).stdout = []
    ∧ (mainRun unreachableWorld emptyDB).db = emptyDB
    ∧ Query.qInsert "alice" "alice@example.com"
        ∉ (mainRun unreachableWorld emptyDB).queries := by
  have h := fatal_tier_terminates_immediately unreachableWorld emptyDB
    (Or.inr (Or.inl rfl))
  exact ⟨h.1, h.2.1, h.2.2.1, h.2.2.2 "alice" "alice@example.com"⟩

/-- C5: against any `users` table that contains a row with email `e`, an
insert attempt for a record whose username matches no existing row but whose
email is `e` fails with the email-uniqueness violation (the `ON CONFLICT`
clause is keyed on `username` only), the resulting event is a failure
naming that username, and the table is left unchanged. -/
theorem email_conflict_fails_unchanged (db : DB) (r : Row) (u' : String)
    (htab : db.usersTable.isSome)
    (hr : r ∈ db.rows)
    (hu : ∀ s ∈ db.rows, s.username ≠ u') :
    insertUser db u' r.email = Except.error emailConflictMsg
    ∧ runInserts [none] db [(u', r.email)]
        = (db, [InsertEvent.failure u' r.email emailConflictMsg]) := by
  have h1 : db.usersTable.isNone = false := by
    rcases hs : db.usersTable with _ | s
    · rw [hs] at htab; simp at htab
    · rfl
  have h2 : db.rows.any (fun s => s.username = u') = false := by
    rw [List.any_eq_false]
    intro s hs
    simp only [decide_eq_true_eq]
    exact hu s hs
  have h3 : db.rows.any (fun s => s.email = r.email) = true := by
    rw [List.any_eq_true]
    exact ⟨r, hr, by simp⟩
  have hins : insertUser db u' r.email = Except.error emailConflictMsg := by
    simp [insertUser, h1, h2, h3]
  refine ⟨hins, ?_⟩
  have hexec : execInsert ((([none] : List (Option String))).headD none) db u' r.email
      = Except.error emailConflictMsg := hins
  simp only [runInserts, hexec]

/-- Database already holding the row (bob, bob@example.com). -/
def seededDB : DB :=
  { usersTable := some usersSchema,
    rows := [{ username := "bob", email := "bob@example.com" }] }

/-- C5 witness: inserting (carol, bob@example.com) into a table holding
(bob, bob@example.com) fails with the email-uniqueness violation and leaves
the table unchanged. -/
theorem email_conflict_fails_unchanged_witness :
    insertUser seededDB "carol" "bob@example.com" = Except.error emailConflictMsg
    ∧ runInserts [none] seededDB [("carol", "bob@example.com")]
        = (seededDB,
           [InsertEvent.failure "carol" "bob@example.com" emailConflictMsg]) :=
  email_conflict_fails_unchanged seededDB
    { username := "bob", email := "bob@example.com" } "carol"
    rfl (List.mem_singleton.mpr rfl) (by decide)

/-- C6: the schema-creation step is idempotent — on a database with no
`users` table it installs exactly the four-column schema of §3 of the spec
(serial primary key `id`; unique non-null `username`, at most 50 characters;
unique non-null `email`, at most 100 characters; `created_at` defaulting to
the insertion timestamp), on a database that already has a `users` table it
is a no-op, and running it twice equals running it once. -/
theorem create_table_idempotent (db : DB) :
    (db.usersTable = none →
      createTableIfNotExists db = { db with usersTable := some usersSchema })
    ∧ (∀ s, db.usersTable = some s → createTableIfNotExists db = db)
    ∧ createTableIfNotExists (createTableIfNotExists db) = createTableIfNotExists db
    ∧ usersSchema.length = 4
    ∧ usersSchema.map Column.name = ["id", "username", "email", "created_at"]
    ∧ (∃ c ∈ usersSchema, c.name = "id" ∧ c.sqlType = "SERIAL"
        ∧ c.primaryKey = true)
    ∧ (∃ c ∈ usersSchema, c.name = "username" ∧ c.sqlType = "VARCHAR"
        ∧ c.maxLen = some 50 ∧ c.uniq = true ∧ c.notNull = true)
    ∧ (∃ c ∈ usersSchema, c.name = "email" ∧ c.sqlType = "VARCHAR"
        ∧ c.maxLen = some 100 ∧ c.uniq = true ∧ c.notNull = true)
    ∧ (∃ c ∈ usersSchema, c.name = "created_at" ∧ c.sqlType = "TIMESTAMP"
        ∧ c.defaultVal = some "CURRENT_TIMESTAMP") := by
  refine ⟨?_, ?_, ?_, by decide, by decide, by decide, by decide, by decide,
    by decide⟩
  · intro h
    simp [createTableIfNotExists, h]
  · intro s h
    simp [createTableIfNotExists, h]
  · rcases h : db.usersTable with _ | s <;> simp [createTableIfNotExists, h]

/-- C6 witness: creating the table on the empty database installs the
`users` schema, and a second creation is a no-op. -/
theorem create_table_idempotent_witness :
    createTableIfNotExists emptyDB = { emptyDB with usersTable := some usersSchema }
    ∧ createTableIfNotExists (createTableIfNotExists emptyDB)
        = createTableIfNotExists emptyDB :=
  ⟨(create_table_idempotent emptyDB).1 rfl,
   (create_table_idempotent emptyDB).2.2.1⟩

/-- C7: on every run that completes without a fatal error, standard output
is exactly the table-created confirmation, then one success line per
non-erroring insert attempt in input order, then the captured time line,
then the developer line; the failure lines of erroring inserts go to the
diagnostic stream instead. -/
theorem stdout_order (w : World) (db0 : DB) (t : String)
    (hq : w.nowRes = Except.ok t)
    (hfatal : (mainRun w db0).fatal = none) :
    (mainRun w db0).stdout
      = tableLine
        :: ((runInserts w.insertExt (createTableIfNotExists db0) usersInput).2.filterMap
              successLineOf
            ++ [timeLine t, developerLine (viperGetString w.cfg "Developer")])
    ∧ (mainRun w db0).errlog
      = (runInserts w.insertExt (createTableIfNotExists db0) usersInput).2.filterMap
          failLineOf := by
  revert hfatal
  unfold mainRun
  rcases w.cfg.fileErr with _ | m
  · rcases w.net (viperGetString w.cfg "CONN_STR") with _ | m
    · rw [hq]
      rcases w.createRes with _ | m
      · intro _
        exact ⟨rfl, rfl⟩
      · intro h
        simp at h
    · intro h
      simp at h
  · intro h
    simp at h

/-- C7 witness: the output shape of the reference run at the concrete world. -/
theorem stdout_order_witness :
    (mainRun okWorld emptyDB).stdout
      = tableLine
        :: ((runInserts okWorld.insertExt (createTableIfNotExists emptyDB)
              usersInput).2.filterMap successLineOf
            ++ [timeLine "2025-12-09 15:30:45.123456 +0000 UTC",
                developerLine (viperGetString okWorld.cfg "Developer")])
    ∧ (mainRun okWorld emptyDB).errlog
      = (runInserts okWorld.insertExt (createTableIfNotExists emptyDB)
          usersInput).2.filterMap failLineOf :=
  stdout_order okWorld emptyDB "2025-12-09 15:30:45.123456 +0000 UTC" rfl rfl

/-- A loop iteration only ever issues an insert statement, never the time
query. -/
theorem qNow_not_eventQuery (evs : List InsertEvent) :
    Query.qNow ∉ evs.map eventQuery := by
  intro h
  rw [List.mem_map] at h
  obtain ⟨ev, _, hev⟩ := h
  cases ev <;> simp [eventQuery] at hev

/-- C8: in every run in which the connection was opened, the server time is
queried exactly once, as the first statement issued — before the schema
statement and every insert — and on a completed run the time line printed at
the end shows exactly the value captured by that query. -/
theorem time_queried_once_first (w : World) (db0 : DB)
    (hopen : (mainRun w db0).opened = true) :
    (mainRun w db0).queries.count Query.qNow = 1
    ∧ (mainRun w db0).queries.head? = some Query.qNow
    ∧ (∀ t, w.nowRes = Except.ok t → (mainRun w db0).fatal = none →
        timeLine t ∈ (mainRun w db0).stdout) := by
  revert hopen
  unfold mainRun
  rcases w.cfg.fileErr with _ | m
  · rcases w.net (viperGetString w.cfg "CONN_STR") with _ | m
    · rcases w.nowRes with m | t0
      · intro _
        refine ⟨rfl, rfl, ?_⟩
        intro t ht
        simp at ht
      · rcases w.createRes with _ | m
        · intro _
          refine ⟨?_, rfl, ?_⟩
          · simp [List.count_cons,
              List.count_eq_zero.mpr (qNow_not_eventQuery _)]
          · intro t ht _
            injection ht with ht
            subst ht
            simp
        · intro _
          refine ⟨rfl, rfl, ?_⟩
          intro t _ hfz
          simp at hfz
    · intro hopen
      simp at hopen
  · intro hopen
    simp at hopen

/-- C8 witness: on the reference run the time query is issued once and
first, and the printed time line carries the captured value. -/
theorem time_queried_once_first_witness :
    (mainRun okWorld emptyDB).queries.count Query.qNow = 1
    ∧ (mainRun okWorld emptyDB).queries.head? = some Query.qNow
    ∧ timeLine "2025-12-09 15:30:45.123456 +0000 UTC"
        ∈ (mainRun okWorld emptyDB).stdout := by
  have h := time_queried_once_first okWorld emptyDB rfl
  exact ⟨h.1, h.2.1, h.2.2 "2025-12-09 15:30:45.123456 +0000 UTC" rfl rfl⟩

/-- The last element of a list of the shape the completed run prints. -/
theorem getLast_cons_append_pair (a b x : String) (l : List String) :
    (a :: (l ++ [b, x])).getLast? = some x := by
  have h : a :: (l ++ [b, x]) = (a :: (l ++ [b])) ++ [x] := by simp
  rw [h, List.getLast?_concat]

/-- C9: the `Developer` value the program reads is the programmatically
injected constant "Hozana", whatever the configuration file and the process
environment bind — including any external binding for the key `Developer`,
since `viper.Set` takes precedence over both — and the last line a completed
run prints is the developer line with that constant. -/
theorem developer_constant (w : World) (db0 : DB) :
    viperGetString w.cfg "Developer" = "Hozana"
    ∧ ((mainRun w db0).fatal = none →
        (mainRun w db0).stdout.getLast? = some (developerLine "Hozana")) := by
  refine ⟨rfl, ?_⟩
  intro hfatal
  revert hfatal
  unfold mainRun
  rcases w.cfg.fileErr with _ | m
  · rcases w.net (viperGetString w.cfg "CONN_STR") with _ | m
    · rcases w.nowRes with m | t0
      · intro h
        simp at h
      · rcases w.createRes with _ | m
        · intro _
          exact getLast_cons_append_pair tableLine (timeLine t0)
            (developerLine "Hozana") _
        · intro h
          simp at h
    · intro h
      simp at h
  · intro h
    simp at h

/-- World whose configuration file and environment both try to bind
`Developer` to other values, next to a valid connection string. -/
def spoofedWorld : World :=
  { cfg := { fileErr := none,
             fileVals := [("CONN_STR", "postgres://localhost:5432/testdb"),
                          ("Developer", "Mallory")],
             envVars := [("Developer", "Eve"), ("DEVELOPER", "Eve")] },
    net := fun _ => none,
    nowRes := Except.ok "2025-12-09 16:00:00 +0000 UTC",
    createRes := none,
    insertExt := [] }

/-- C9 witness: even with `Developer` bound in the file and the environment,
the run reads and prints the constant "Hozana". -/
theorem developer_constant_witness :
    viperGetString spoofedWorld.cfg "Developer" = "Hozana"
    ∧ (mainRun spoofedWorld emptyDB).stdout.getLast?
        = some (developerLine "Hozana") :=
  ⟨(developer_constant spoofedWorld emptyDB).1,
   (developer_constant spoofedWorld emptyDB).2 rfl⟩

/-- C10: when the `.env` file cannot be read, the run terminates fatally at
the configuration-load step whatever the process environment holds — even a
valid `CONN_STR` environment binding — so no connection is opened, no
statement is issued, and the database is untouched. -/
theorem config_error_fatal_despite_env (w : World) (db0 : DB) (m : String)
    (h : w.cfg.fileErr = some m) :
    (mainRun w db0).fatal = some ("Error loading .env file:" ++ m)
    ∧ (mainRun w db0).queries = []
    ∧ (mainRun w db0).opened = false
    ∧ (mainRun w db0).db = db0 := by
  unfold mainRun
  rw [h]
  exact ⟨rfl, rfl, rfl, rfl⟩

/-- World whose `.env` file is missing while the process environment holds a
valid `CONN_STR` and the server would accept the connection. -/
def badFileWorld : World :=
  { cfg := { fileErr := some "open .env: no such file or directory",
             fileVals := [],
             envVars := [("CONN_STR", "postgres://postgres:pw@localhost:5432/testdb")] },
    net := fun _ => none,
    nowRes := Except.ok "2025-12-09 17:00:00 +0000 UTC",
    createRes := none,
    insertExt := [] }

/-- C10 witness: with a missing `.env` file and a valid `CONN_STR` in the
environment, the run is still fatal at configuration load and issues
nothing. -/
theorem config_error_fatal_despite_env_witness :
    (mainRun badFileWorld emptyDB).fatal
        = some ("Error loading .env file:"
                 ++ "open .env: no such file or directory")
    ∧ (mainRun badFileWorld emptyDB).queries = []
    ∧ (mainRun badFileWorld emptyDB).opened = false
    ∧ (mainRun badFileWorld emptyDB).db = emptyDB :=
  config_error_fatal_despite_env badFileWorld emptyDB
    "open .env: no such file or directory" rfl
